import Mathlib

/-!
Shallow embedding of the inventory/POS application state layer
(`src/src/context/AppContext.tsx`) and proofs of its specified properties.

The application context holds four state collections (products, sales,
notifications, current user) plus the stored session token, and exposes
mutation methods (`addProduct`, `updateProduct`, `deleteProduct`, `addSale`,
`markNotificationAsRead`, `clearNotifications`, `login`, `logout`).

Modelling decisions:
- Remote calls are modelled by a `RemoteResult` value passed to each method:
  `ok payload` models a successful response with the parsed JSON body,
  `httpError` a non-success HTTP status (the `if (response.ok)` branch is
  skipped), `networkError` a thrown fetch error (caught by the surrounding
  `try/catch`, which only logs).
- React `useState` setter semantics: within a single method invocation,
  every `setX(v)` call computes `v` from the state captured by the closure
  at render time, and when several `setX` calls happen in one invocation the
  last value passed wins.  In `addSale` the per-item
  `setNotifications([notification, ...notifications])` therefore reads the
  stale `notifications` array each time, so only the last created
  notification of one call survives; this is modelled by threading a
  `lastNotif : Option Notification` through the item loop.
- Timestamps (`new Date()`) are modelled by a `now : Nat` argument; all
  `new Date()` calls inside one method invocation yield the same instant.
- `generateId` lives in `src/utils/formatters`, which is not part of the
  sources; modelled from the spec: a generated (fresh) identifier per
  created notification, supplied as `genId : Nat → String` indexed by the
  number of ids generated so far in the call.
-/

namespace ERP

/-- A product record (`Product` in `src/types`): id, name, quantity,
reorder threshold and timestamps.  Quantities are exact integers
(JS numbers in the realistic range behave as exact integers). -/
structure Product where
  id : String
  name : String
  quantity : Int
  threshold : Int
  createdAt : Nat
  updatedAt : Nat
  deriving Repr, DecidableEq

/-- A sale line item: `{productId, quantity}`. -/
structure SaleItem where
  productId : String
  quantity : Int
  deriving Repr, DecidableEq

/-- A sale record: id, date, and the ordered list of line items. -/
structure Sale where
  id : String
  date : Nat
  products : List SaleItem
  deriving Repr, DecidableEq

/-- Notification severity kinds (`'success' | 'warning' | 'error' | 'info'`). -/
inductive NotificationKind where
  | success
  | warning
  | error
  | info
  deriving Repr, DecidableEq

/-- A notification record: id, title, message, kind, read flag, date. -/
structure Notification where
  id : String
  title : String
  message : String
  kind : NotificationKind
  read : Bool
  date : Nat
  deriving Repr, DecidableEq

/-- A user record. -/
structure User where
  id : String
  name : String
  email : String
  role : String
  deriving Repr, DecidableEq

/-- The state held by `AppProvider`: the four `useState` collections plus
the session token stored in `localStorage`. -/
structure AppState where
  products : List Product
  sales : List Sale
  notifications : List Notification
  currentUser : Option User
  token : Option String
  deriving Repr, DecidableEq

/-- Outcome of a remote `fetch` call returning a payload of type `α`:
a successful response with parsed body, a non-success HTTP status, or a
network error thrown by `fetch` (caught and logged by the method). -/
inductive RemoteResult (α : Type) where
  | ok (value : α)
  | httpError
  | networkError
  deriving Repr, DecidableEq

/-- Lookup by product id (the `find` / `findIndex` calls on `products`):
the first product in the list whose id matches, if any. -/
def findProduct (ps : List Product) (pid : String) : Option Product :=
  ps.find? (fun p => p.id == pid)

/-- The notification created (or not) for a product after its quantity has
been updated to `newQuantity`, following `addSale` lines 188-209:
`if (newQuantity <= product.threshold && newQuantity > 0)` a "warning"
notification "Low Stock Alert"; `else if (newQuantity <= 0)` an "error"
notification "Out of Stock Alert"; else none. -/
def notificationFor (p : Product) (newQuantity : Int) (nid : String) (now : Nat) :
    Option Notification :=
  if newQuantity ≤ p.threshold ∧ newQuantity > 0 then
    some { id := nid
           title := "Low Stock Alert"
           message := p.name ++ " is running low on stock (" ++ toString newQuantity ++ " remaining)"
           kind := .warning
           read := false
           date := now }
  else if newQuantity ≤ 0 then
    some { id := nid
           title := "Out of Stock Alert"
           message := p.name ++ " is now out of stock!"
           kind := .error
           read := false
           date := now }
  else
    none

/-- Processing of one line item (`addSale` lines 177-210): find the first
product whose id matches (`findIndex`), update its quantity to
`product.quantity - item.quantity` and refresh its updated-timestamp, and
compute the notification (if any) for the new quantity.  An unresolvable
item (`productIndex === -1`) changes nothing and emits nothing. -/
def processItem (now : Nat) (nid : String) (ps : List Product) (item : SaleItem) :
    List Product × Option Notification :=
  match ps with
  | [] => ([], none)
  | p :: rest =>
    if p.id == item.productId then
      (({ p with quantity := p.quantity - item.quantity, updatedAt := now }) :: rest,
       notificationFor p (p.quantity - item.quantity) nid now)
    else
      (p :: (processItem now nid rest item).1, (processItem now nid rest item).2)

/-- The `saleData.products.forEach` loop of `addSale`: threads the working
copy of the product list through the items, and keeps the value passed to
the *last* `setNotifications([notification, ...notifications])` call — each
such call reads the stale `notifications` closure variable, so only the
last created notification of one invocation survives.  `k` counts the
`generateId()` calls made so far (one per created notification). -/
def processItems (genId : Nat → String) (now : Nat) :
    Nat → List Product → Option Notification → List SaleItem →
    List Product × Option Notification
  | _, ps, lastNotif, [] => (ps, lastNotif)
  | k, ps, lastNotif, item :: rest =>
    match (processItem now (genId k) ps item).2 with
    | some n => processItems genId now (k + 1) (processItem now (genId k) ps item).1 (some n) rest
    | none => processItems genId now k (processItem now (genId k) ps item).1 lastNotif rest

/-- The method `addSale` (lines 159-218): on a successful remote POST the returned
sale is appended to the sales list, product quantities are decremented per
line item, and the surviving notification (if any) is prepended to the
notification list.  On `httpError` the `response.ok` branch is skipped; on
`networkError` the `catch` only logs — in both cases local state is
unchanged. -/
def addSale (genId : Nat → String) (remote : RemoteResult Sale) (now : Nat)
    (s : AppState) (saleItems : List SaleItem) : AppState :=
  match remote with
  | .httpError => s
  | .networkError => s
  | .ok newSale =>
    { s with
      sales := s.sales ++ [newSale]
      products := (processItems genId now 0 s.products none saleItems).1
      notifications :=
        match (processItems genId now 0 s.products none saleItems).2 with
        | some n => n :: s.notifications
        | none => s.notifications }

/-- The method `addProduct` (lines 96-115): on success the product returned by the
server is appended; on failure nothing changes. -/
def addProduct (remote : RemoteResult Product) (s : AppState) : AppState :=
  match remote with
  | .ok newProduct => { s with products := s.products ++ [newProduct] }
  | .httpError => s
  | .networkError => s

/-- The method `updateProduct` (lines 117-138): on success every product with a
matching id is replaced by the updated record; on failure nothing
changes. -/
def updateProduct (remote : RemoteResult Unit) (s : AppState)
    (updated : Product) : AppState :=
  match remote with
  | .ok _ =>
    { s with products := s.products.map (fun p => if p.id == updated.id then updated else p) }
  | .httpError => s
  | .networkError => s

/-- The method `deleteProduct` (lines 140-156): on success products with the given id
are removed; on failure nothing changes. -/
def deleteProduct (remote : RemoteResult Unit) (s : AppState) (pid : String) :
    AppState :=
  match remote with
  | .ok _ => { s with products := s.products.filter (fun p => p.id != pid) }
  | .httpError => s
  | .networkError => s

/-- The method `markNotificationAsRead` (lines 221-227): maps over the notifications,
setting `read := true` on those whose id matches and leaving the rest
untouched. -/
def markNotificationAsRead (s : AppState) (nid : String) : AppState :=
  { s with notifications :=
      s.notifications.map (fun n => if n.id == nid then { n with read := true } else n) }

/-- The method `clearNotifications` (lines 229-231): replaces the notification
list by the empty list. -/
def clearNotifications (s : AppState) : AppState :=
  { s with notifications := [] }

/-- The method `logout` (lines 90-93): removes the stored token and sets the
current user to `null`, unconditionally. -/
def logout (s : AppState) : AppState :=
  { s with token := none, currentUser := none }

/-- Modelled from the spec: the notification derivation policy as worded in
§4.1 — "if `0 < newQuantity <= product.threshold`: emit a warning-kind
notification titled Low Stock Alert ...; else if `newQuantity <= 0`: emit an
error-kind notification titled Out of Stock Alert ...; else: no
notification."  Stated separately so the code's branch (`notificationFor`)
can be proved to refine it. -/
def specNotificationFor (p : Product) (newQuantity : Int) (nid : String) (now : Nat) :
    Option Notification :=
  if 0 < newQuantity ∧ newQuantity ≤ p.threshold then
    some { id := nid
           title := "Low Stock Alert"
           message := p.name ++ " is running low on stock (" ++ toString newQuantity ++ " remaining)"
           kind := .warning
           read := false
           date := now }
  else if newQuantity ≤ 0 then
    some { id := nid
           title := "Out of Stock Alert"
           message := p.name ++ " is now out of stock!"
           kind := .error
           read := false
           date := now }
  else
    none

/-- A deterministic id supply standing in for `generateId` in concrete
computations. -/
def demoGenId : Nat → String := fun k => "note-" ++ toString k

/-! ### Helper lemmas about one line-item step -/

/-- The per-item branch of the code agrees with the spec's policy wording:
the two guard conditions are the same conjunction with its operands
swapped, and the payloads coincide. -/
theorem notificationFor_eq_spec (p : Product) (q : Int) (nid : String) (now : Nat) :
    notificationFor p q nid now = specNotificationFor p q nid now := by
  unfold notificationFor specNotificationFor
  rw [if_congr (show (q ≤ p.threshold ∧ q > 0) ↔ (0 < q ∧ q ≤ p.threshold) from and_comm) rfl rfl]

/-- Processing one item never changes the list of product ids. -/
theorem processItem_map_id (now : Nat) (nid : String) (item : SaleItem) (ps : List Product) :
    ((processItem now nid ps item).1).map Product.id = ps.map Product.id := by
  induction ps with
  | nil => rfl
  | cons p rest ih =>
    by_cases h : p.id = item.productId
    · simp [processItem, h]
    · simp [processItem, h, ih]

/-- An unresolvable item leaves the product list unchanged and emits
nothing. -/
theorem processItem_not_found (now : Nat) (nid : String) (item : SaleItem)
    (ps : List Product) (h : ∀ p ∈ ps, p.id ≠ item.productId) :
    processItem now nid ps item = (ps, none) := by
  induction ps with
  | nil => rfl
  | cons p rest ih =>
    have hp : ¬ p.id = item.productId := h p (List.mem_cons_self p rest)
    have hrest := ih (fun q hq => h q (List.mem_cons_of_mem p hq))
    simp [processItem, hp, hrest]

/-- When the item resolves (first match) to product `p`, the updated list
holds `p` with quantity `p.quantity - item.quantity` and refreshed
timestamp at that id, and the emitted notification is `notificationFor`
of the new quantity. -/
theorem processItem_found (now : Nat) (nid : String) (item : SaleItem)
    (ps : List Product) (p : Product) (h : findProduct ps item.productId = some p) :
    findProduct (processItem now nid ps item).1 item.productId
      = some { p with quantity := p.quantity - item.quantity, updatedAt := now } ∧
    (processItem now nid ps item).2
      = notificationFor p (p.quantity - item.quantity) nid now := by
  induction ps with
  | nil => simp [findProduct] at h
  | cons q rest ih =>
    by_cases hq : q.id = item.productId
    · have hpq : q = p := by
        simpa [findProduct, List.find?_cons_of_pos, hq] using h
      subst hpq
      constructor
      · simp [processItem, hq, findProduct, List.find?_cons_of_pos]
      · simp [processItem, hq]
    · have h' : findProduct rest item.productId = some p := by
        simpa [findProduct, List.find?_cons_of_neg, hq] using h
      have := ih h'
      constructor
      · simpa [processItem, hq, findProduct, List.find?_cons_of_neg] using this.1
      · simpa [processItem, hq] using this.2

/-- Any notification a line-item step emits was created in this call: it
carries the call instant as date and is unread. -/
theorem processItem_snd_fresh (now : Nat) (nid : String) (item : SaleItem)
    (ps : List Product) (n : Notification)
    (h : (processItem now nid ps item).2 = some n) :
    n.date = now ∧ n.read = false := by
  induction ps with
  | nil => simp [processItem] at h
  | cons p rest ih =>
    by_cases hp : p.id = item.productId
    · have hh : notificationFor p (p.quantity - item.quantity) nid now = some n := by
        simpa [processItem, hp] using h
      unfold notificationFor at hh
      split_ifs at hh
      all_goals
        rw [Option.some.injEq] at hh
        subst hh
        exact ⟨rfl, rfl⟩
    · have hh : (processItem now nid rest item).2 = some n := by
        simpa [processItem, hp] using h
      exact ih hh

/-! ### Helper lemmas about the item loop -/

/-- Unfolding equation: the empty loop. -/
theorem processItems_nil (genId : Nat → String) (now k : Nat) (ps : List Product)
    (acc : Option Notification) :
    processItems genId now k ps acc [] = (ps, acc) := rfl

/-- Unfolding equation: one loop step. -/
theorem processItems_cons (genId : Nat → String) (now k : Nat) (ps : List Product)
    (acc : Option Notification) (item : SaleItem) (rest : List SaleItem) :
    processItems genId now k ps acc (item :: rest)
      = match (processItem now (genId k) ps item).2 with
        | some n =>
          processItems genId now (k + 1) (processItem now (genId k) ps item).1 (some n) rest
        | none =>
          processItems genId now k (processItem now (genId k) ps item).1 acc rest := rfl

/-- Loop step when the item creates a notification: the stale-closure
`setNotifications` makes it the new pending value. -/
theorem processItems_cons_some (genId : Nat → String) (now k : Nat) (ps : List Product)
    (acc : Option Notification) (item : SaleItem) (rest : List SaleItem) (n : Notification)
    (h : (processItem now (genId k) ps item).2 = some n) :
    processItems genId now k ps acc (item :: rest)
      = processItems genId now (k + 1) (processItem now (genId k) ps item).1 (some n) rest := by
  rw [processItems_cons, h]

/-- Loop step when the item creates no notification. -/
theorem processItems_cons_none (genId : Nat → String) (now k : Nat) (ps : List Product)
    (acc : Option Notification) (item : SaleItem) (rest : List SaleItem)
    (h : (processItem now (genId k) ps item).2 = none) :
    processItems genId now k ps acc (item :: rest)
      = processItems genId now k (processItem now (genId k) ps item).1 acc rest := by
  rw [processItems_cons, h]

/-- The loop never changes the list of product ids. -/
theorem processItems_map_id (genId : Nat → String) (now : Nat) (items : List SaleItem) :
    ∀ (k : Nat) (ps : List Product) (acc : Option Notification),
      ((processItems genId now k ps acc items).1).map Product.id = ps.map Product.id := by
  induction items with
  | nil => intro k ps acc; rfl
  | cons item rest ih =>
    intro k ps acc
    rcases hpi : (processItem now (genId k) ps item).2 with _ | n
    · rw [processItems_cons_none genId now k ps acc item rest hpi, ih,
        processItem_map_id]
    · rw [processItems_cons_some genId now k ps acc item rest n hpi, ih,
        processItem_map_id]

/-- The notification surviving the loop, if any, was created during this
call: its date is the call instant and it is unread. -/
theorem processItems_snd_fresh (genId : Nat → String) (now : Nat) (items : List SaleItem) :
    ∀ (k : Nat) (ps : List Product) (acc : Option Notification),
      (∀ m, acc = some m → m.date = now ∧ m.read = false) →
      ∀ n, (processItems genId now k ps acc items).2 = some n →
        n.date = now ∧ n.read = false := by
  induction items with
  | nil => intro k ps acc hacc n h; exact hacc n h
  | cons item rest ih =>
    intro k ps acc hacc n h
    rcases hpi : (processItem now (genId k) ps item).2 with _ | m
    · rw [processItems_cons_none genId now k ps acc item rest hpi] at h
      exact ih k _ acc hacc n h
    · rw [processItems_cons_some genId now k ps acc item rest m hpi] at h
      refine ih (k + 1) _ (some m) ?_ n h
      intro m' hm'
      rw [Option.some.injEq] at hm'
      subst hm'
      exact processItem_snd_fresh now (genId k) item ps m hpi

/-- An item whose product id resolves to nothing can be dropped from the
loop without changing its outcome. -/
theorem processItems_skip (genId : Nat → String) (now : Nat) (bad : SaleItem)
    (post : List SaleItem) :
    ∀ (pre : List SaleItem) (k : Nat) (ps : List Product) (acc : Option Notification),
      (∀ p ∈ ps, p.id ≠ bad.productId) →
      processItems genId now k ps acc (pre ++ bad :: post)
        = processItems genId now k ps acc (pre ++ post) := by
  intro pre
  induction pre with
  | nil =>
    intro k ps acc hps
    have hbad := processItem_not_found now (genId k) bad ps hps
    have h2 : (processItem now (genId k) ps bad).2 = none := by rw [hbad]
    have h1 : (processItem now (genId k) ps bad).1 = ps := by rw [hbad]
    simp only [List.nil_append]
    rw [processItems_cons_none genId now k ps acc bad post h2, h1]
  | cons item pre ih =>
    intro k ps acc hps
    have hps' : ∀ p ∈ (processItem now (genId k) ps item).1, p.id ≠ bad.productId := by
      intro p hp
      have hmap := processItem_map_id now (genId k) item ps
      have hid : p.id ∈ ps.map Product.id := by
        rw [← hmap]; exact List.mem_map_of_mem Product.id hp
      rcases List.mem_map.mp hid with ⟨q, hq, hqid⟩
      rw [← hqid]; exact hps q hq
    simp only [List.cons_append]
    rcases hpi : (processItem now (genId k) ps item).2 with _ | n
    · rw [processItems_cons_none genId now k ps acc item (pre ++ bad :: post) hpi,
        processItems_cons_none genId now k ps acc item (pre ++ post) hpi]
      exact ih k _ acc hps'
    · rw [processItems_cons_some genId now k ps acc item (pre ++ bad :: post) n hpi,
        processItems_cons_some genId now k ps acc item (pre ++ post) n hpi]
      exact ih (k + 1) _ (some n) hps'

/-- For a single-item sale the loop's product list is the one step's
product list (whether or not a notification is created). -/
theorem processItems_singleton_fst (genId : Nat → String) (now k : Nat)
    (ps : List Product) (acc : Option Notification) (item : SaleItem) :
    (processItems genId now k ps acc [item]).1 = (processItem now (genId k) ps item).1 := by
  rcases hpi : (processItem now (genId k) ps item).2 with _ | n
  · rw [processItems_cons_none genId now k ps acc item [] hpi, processItems_nil]
  · rw [processItems_cons_some genId now k ps acc item [] n hpi, processItems_nil]

/-- Unfolding equation: notifications after a successful `addSale`. -/
theorem addSale_ok_notifications (genId : Nat → String) (newSale : Sale) (now : Nat)
    (s : AppState) (items : List SaleItem) :
    (addSale genId (.ok newSale) now s items).notifications
      = match (processItems genId now 0 s.products none items).2 with
        | some n => n :: s.notifications
        | none => s.notifications := rfl

/-- Unfolding equation: notifications after `markNotificationAsRead`. -/
theorem markNotificationAsRead_notifications (s : AppState) (nid : String) :
    (markNotificationAsRead s nid).notifications
      = s.notifications.map (fun n => if n.id == nid then { n with read := true } else n) :=
  rfl

/-- Pointwise effect of the read-marking map: ids are preserved and a read
flag is never turned off. -/
theorem markRead_map_forall₂ (nid : String) (l : List Notification) :
    List.Forall₂ (fun old new => old.id = new.id ∧ (old.read = true → new.read = true)) l
      (l.map (fun n => if n.id == nid then { n with read := true } else n)) := by
  induction l with
  | nil => exact List.Forall₂.nil
  | cons n rest ih =>
    refine List.Forall₂.cons ?_ ih
    by_cases hn : n.id = nid
    · simp [hn]
    · simp [hn]

/-- The read-marking map is the identity when no notification has the
given id. -/
theorem markRead_map_id (nid : String) :
    ∀ l : List Notification, (∀ n ∈ l, n.id ≠ nid) →
      l.map (fun n => if n.id == nid then { n with read := true } else n) = l
  | [], _ => rfl
  | n :: rest, hl => by
    have hn : ¬ n.id = nid := hl n (List.mem_cons_self n rest)
    rw [List.map_cons, markRead_map_id nid rest (fun m hm => hl m (List.mem_cons_of_mem n hm))]
    simp [hn]

/-! ### Concrete fixtures -/

/-- A two-product inventory for concrete evaluations: both products have
quantity 10 and threshold 5. -/
def twoProductState : AppState :=
  { products :=
      [{ id := "p1", name := "Alpha", quantity := 10, threshold := 5, createdAt := 0, updatedAt := 0 },
       { id := "p2", name := "Beta", quantity := 10, threshold := 5, createdAt := 0, updatedAt := 0 }]
    sales := []
    notifications := []
    currentUser := none
    token := none }

/-- The spec §8 example inventory: one product with quantity 10 and
threshold 5. -/
def exampleState : AppState :=
  { products :=
      [{ id := "p1", name := "Widget", quantity := 10, threshold := 5, createdAt := 0, updatedAt := 0 }]
    sales := []
    notifications := []
    currentUser := none
    token := none }

/-- The example state after `recordSale([{productId:"p1", quantity:6}])`. -/
def exampleState1 : AppState :=
  addSale demoGenId
    (.ok { id := "s1", date := 1, products := [{ productId := "p1", quantity := 6 }] })
    1 exampleState [{ productId := "p1", quantity := 6 }]

/-- A state holding a single unread notification, for the unknown-id
frame property. -/
def oneNotificationState : AppState :=
  { products := []
    sales := []
    notifications :=
      [{ id := "n1", title := "Low Stock Alert", message := "m", kind := .warning,
         read := false, date := 0 }]
    currentUser := none
    token := none }

/-! ### Claim theorems -/

/-- C1: for every resolvable line item of a recorded sale, after the
product's quantity is updated to `newQuantity`, the notification emitted
for that product is exactly the one given by the spec policy: a warning
"Low Stock Alert" with message "{name} is running low on stock
({newQuantity} remaining)" when `0 < newQuantity <= threshold`, an error
"Out of Stock Alert" with message "{name} is now out of stock!" when
`newQuantity <= 0`, and none otherwise. -/
theorem addSale_item_notification_policy (now : Nat) (nid : String)
    (ps : List Product) (item : SaleItem) (p : Product)
    (h : findProduct ps item.productId = some p) :
    (processItem now nid ps item).2
      = specNotificationFor p (p.quantity - item.quantity) nid now := by
  rw [(processItem_found now nid item ps p h).2, notificationFor_eq_spec]

/-- Witness for C1 at a concrete input: product Alpha (quantity 10,
threshold 5) sold 6 units. -/
theorem addSale_item_notification_policy_witness :
    findProduct twoProductState.products "p1"
        = some { id := "p1", name := "Alpha", quantity := 10, threshold := 5,
                 createdAt := 0, updatedAt := 0 } ∧
    (processItem 1 "note-0" twoProductState.products { productId := "p1", quantity := 6 }).2
      = specNotificationFor
          { id := "p1", name := "Alpha", quantity := 10, threshold := 5,
            createdAt := 0, updatedAt := 0 }
          (10 - 6) "note-0" 1 :=
  ⟨by decide,
   addSale_item_notification_policy 1 "note-0" twoProductState.products
     { productId := "p1", quantity := 6 }
     { id := "p1", name := "Alpha", quantity := 10, threshold := 5,
       createdAt := 0, updatedAt := 0 }
     (by decide)⟩

/-- C2 (code bug): one sale with two line items, each dropping a distinct
product to quantity 4 (threshold 5), should produce one warning per
product; the code keeps only the notification of the last qualifying item,
because each `setNotifications([notification, ...notifications])` inside
the loop reads the stale `notifications` closure value.  Both products are
updated to quantity 4, yet the resulting collection holds exactly one
notification, referencing Beta — none references Alpha. -/
theorem addSale_multi_item_drops_first_notification :
    ((addSale demoGenId
        (.ok { id := "s1", date := 1,
               products := [{ productId := "p1", quantity := 6 },
                            { productId := "p2", quantity := 6 }] })
        1 twoProductState
        [{ productId := "p1", quantity := 6 },
         { productId := "p2", quantity := 6 }]).products.map Product.quantity
      = [4, 4]) ∧
    ((addSale demoGenId
        (.ok { id := "s1", date := 1,
               products := [{ productId := "p1", quantity := 6 },
                            { productId := "p2", quantity := 6 }] })
        1 twoProductState
        [{ productId := "p1", quantity := 6 },
         { productId := "p2", quantity := 6 }]).notifications.map Notification.message
      = ["Beta is running low on stock (4 remaining)"]) := by
  constructor
  · decide
  · decide

/-- C3: for a resolvable line item, the product's new quantity after a
successful `addSale` is exactly `product.quantity - item.quantity` in
integer arithmetic — not clamped at zero — and its updated-timestamp is
refreshed to the call instant. -/
theorem addSale_quantity_exact (genId : Nat → String) (newSale : Sale) (now : Nat)
    (s : AppState) (item : SaleItem) (p : Product)
    (h : findProduct s.products item.productId = some p) :
    findProduct (addSale genId (.ok newSale) now s [item]).products item.productId
      = some { p with quantity := p.quantity - item.quantity, updatedAt := now } := by
  show findProduct (processItems genId now 0 s.products none [item]).1 item.productId = _
  rw [processItems_singleton_fst]
  exact (processItem_found now (genId 0) item s.products p h).1

/-- Witness for C3 at the spec §8 example: quantity 10, threshold 5, sale
of 6 leaves quantity 4; a further sale of 10 stores quantity -6 (negative,
not clamped) with a refreshed timestamp. -/
theorem addSale_quantity_exact_witness :
    findProduct exampleState1.products "p1"
        = some { id := "p1", name := "Widget", quantity := 4, threshold := 5,
                 createdAt := 0, updatedAt := 1 } ∧
    findProduct (addSale demoGenId
        (.ok { id := "s2", date := 2, products := [{ productId := "p1", quantity := 10 }] })
        2 exampleState1 [{ productId := "p1", quantity := 10 }]).products "p1"
      = some { id := "p1", name := "Widget", quantity := -6, threshold := 5,
               createdAt := 0, updatedAt := 2 } :=
  ⟨by decide,
   addSale_quantity_exact demoGenId
     { id := "s2", date := 2, products := [{ productId := "p1", quantity := 10 }] }
     2 exampleState1 { productId := "p1", quantity := 10 }
     { id := "p1", name := "Widget", quantity := 4, threshold := 5,
       createdAt := 0, updatedAt := 1 }
     (by decide)⟩

/-- C4: every `addSale` call either leaves the notification collection
unchanged or prepends a single notification created during this call
(unread, dated at the call instant) in front of the previous collection,
so after sequential sale-triggered notifications the first element is
always the most recently triggered one. -/
theorem addSale_prepends_notifications (genId : Nat → String) (remote : RemoteResult Sale)
    (now : Nat) (s : AppState) (items : List SaleItem) :
    (addSale genId remote now s items).notifications = s.notifications ∨
    ∃ n : Notification, n.date = now ∧ n.read = false ∧
      (addSale genId remote now s items).notifications = n :: s.notifications := by
  cases remote with
  | httpError => exact Or.inl rfl
  | networkError => exact Or.inl rfl
  | ok newSale =>
    rcases hpn : (processItems genId now 0 s.products none items).2 with _ | n
    · exact Or.inl (by rw [addSale_ok_notifications, hpn])
    · have hfresh := processItems_snd_fresh genId now items 0 s.products none
        (fun m hm => Option.noConfusion hm) n hpn
      exact Or.inr ⟨n, hfresh.1, hfresh.2, by rw [addSale_ok_notifications, hpn]⟩

/-- C5: a line item whose product id resolves to no product is silently
skipped — removing it from the sale leaves the entire resulting state
unchanged (same products, same notifications, same appended sale), the
remaining items are still processed, and no failure is signalled (the
operation is a total function). -/
theorem addSale_skips_unresolvable (genId : Nat → String) (remote : RemoteResult Sale)
    (now : Nat) (s : AppState) (pre post : List SaleItem) (bad : SaleItem)
    (h : ∀ p ∈ s.products, p.id ≠ bad.productId) :
    addSale genId remote now s (pre ++ bad :: post)
      = addSale genId remote now s (pre ++ post) := by
  cases remote with
  | httpError => rfl
  | networkError => rfl
  | ok newSale =>
    unfold addSale
    rw [processItems_skip genId now bad post pre 0 s.products none h]

/-- Witness for C5 at a concrete input: a sale with a resolvable item and
a ghost item behaves exactly like the sale without the ghost item. -/
theorem addSale_skips_unresolvable_witness :
    (twoProductState.products.all fun p => p.id != "ghost") = true ∧
    addSale demoGenId
        (.ok { id := "s1", date := 1,
               products := [{ productId := "p1", quantity := 6 },
                            { productId := "ghost", quantity := 1 }] })
        1 twoProductState
        ([{ productId := "p1", quantity := 6 }] ++ { productId := "ghost", quantity := 1 } :: [])
      = addSale demoGenId
          (.ok { id := "s1", date := 1,
                 products := [{ productId := "p1", quantity := 6 },
                              { productId := "ghost", quantity := 1 }] })
          1 twoProductState ([{ productId := "p1", quantity := 6 }] ++ []) :=
  ⟨by decide,
   addSale_skips_unresolvable demoGenId
     (.ok { id := "s1", date := 1,
            products := [{ productId := "p1", quantity := 6 },
                         { productId := "ghost", quantity := 1 }] })
     1 twoProductState [{ productId := "p1", quantity := 6 }] []
     { productId := "ghost", quantity := 1 } (by decide)⟩

/-- C6: for every product mutation entry point and for `addSale`, a remote
write failure — non-success HTTP status or network error — leaves the
local state (products, sales, notifications, user, token) entirely
unchanged; the methods are total, so no exception reaches the caller. -/
theorem remote_failure_leaves_state_unchanged (s : AppState) (genId : Nat → String)
    (now : Nat) (items : List SaleItem) (up : Product) (pid : String) :
    addProduct .httpError s = s ∧ addProduct .networkError s = s ∧
    updateProduct .httpError s up = s ∧ updateProduct .networkError s up = s ∧
    deleteProduct .httpError s pid = s ∧ deleteProduct .networkError s pid = s ∧
    addSale genId .httpError now s items = s ∧ addSale genId .networkError now s items = s :=
  ⟨rfl, rfl, rfl, rfl, rfl, rfl, rfl, rfl⟩

/-- C7: the read flag is monotonic across the notification-touching
operations.  `addSale` only ever adds in front of the untouched previous
collection; `markNotificationAsRead` relates pointwise to the previous
collection, preserving ids and never turning a read flag off; after
`clearNotifications` no notification is present at all, so the condition
is vacuous. -/
theorem notification_read_flag_monotonic (genId : Nat → String) (remote : RemoteResult Sale)
    (now : Nat) (s : AppState) (items : List SaleItem) (nid : String) :
    (∃ added : List Notification,
        (addSale genId remote now s items).notifications = added ++ s.notifications) ∧
    List.Forall₂ (fun old new => old.id = new.id ∧ (old.read = true → new.read = true))
      s.notifications (markNotificationAsRead s nid).notifications ∧
    (clearNotifications s).notifications = [] := by
  refine ⟨?_, ?_, rfl⟩
  · cases remote with
    | httpError => exact ⟨[], rfl⟩
    | networkError => exact ⟨[], rfl⟩
    | ok newSale =>
      rcases hpn : (processItems genId now 0 s.products none items).2 with _ | n
      · exact ⟨[], by rw [addSale_ok_notifications, hpn]; rfl⟩
      · exact ⟨[n], by rw [addSale_ok_notifications, hpn]; rfl⟩
  · rw [markNotificationAsRead_notifications]
    exact markRead_map_forall₂ nid s.notifications

/-- C8: `markNotificationAsRead` is idempotent — applying it twice with
the same id yields exactly the same state as applying it once. -/
theorem markNotificationAsRead_idempotent (s : AppState) (nid : String) :
    markNotificationAsRead (markNotificationAsRead s nid) nid
      = markNotificationAsRead s nid := by
  have hmap : ∀ l : List Notification,
      (l.map (fun n => if n.id == nid then { n with read := true } else n)).map
          (fun n => if n.id == nid then { n with read := true } else n)
        = l.map (fun n => if n.id == nid then { n with read := true } else n) := by
    intro l
    induction l with
    | nil => rfl
    | cons n rest ih =>
      rw [List.map_cons, List.map_cons, ih]
      congr 1
      by_cases hn : n.id = nid
      · simp [hn]
      · simp [hn]
  unfold markNotificationAsRead
  dsimp only
  rw [hmap]

/-- C9: `logout` unconditionally clears the stored token and the current
user; for every prior state — including the already-logged-out one — the
resulting state has no current user and no stored token. -/
theorem logout_clears_session (s : AppState) :
    (logout s).currentUser = none ∧ (logout s).token = none :=
  ⟨rfl, rfl⟩

/-- C10: marking a notification id that matches nothing leaves the state
— in particular the notification collection, order and read flags —
exactly unchanged, and no error is raised (the operation is total). -/
theorem markNotificationAsRead_unknown_id (s : AppState) (nid : String)
    (h : ∀ n ∈ s.notifications, n.id ≠ nid) :
    markNotificationAsRead s nid = s := by
  unfold markNotificationAsRead
  rw [markRead_map_id nid s.notifications h]

/-- Witness for C10 at a concrete input: a state with one notification and
an id matching nothing. -/
theorem markNotificationAsRead_unknown_id_witness :
    (oneNotificationState.notifications.all fun n => n.id != "zzz") = true ∧
    markNotificationAsRead oneNotificationState "zzz" = oneNotificationState :=
  ⟨by decide, markNotificationAsRead_unknown_id oneNotificationState "zzz" (by decide)⟩

end ERP
